import Mathlib

/-!
Shallow embedding of the StudyRobo backend core (tool-augmented conversation
engine) and proofs about it.  Sources embedded:
  backend/app/core/enhanced_llm_wrapper_supabase.py
  backend/app/core/db_client.py
  backend/app/tools/attendance_tools_supabase.py
  backend/app/tools/email_tools_supabase.py
  backend/app/tools/calendar_tools_supabase.py
  backend/app/api/v1/endpoints/chat_supabase.py
  backend/app/api/v1/endpoints/conversations.py
External collaborators (the OpenAI model, Gmail/Calendar HTTP APIs, the
vector search, the SQL connection) are modelled as oracles supplied to the
embedded functions; every external effect the code issues is recorded in an
explicit trace.
-/

namespace StudyRobo

/-- JSON-like values: the Python dicts passed around as tool results. -/
inductive JVal where
  | str (s : String)
  | bool (b : Bool)
  | num (n : Int)
  | null
  | arr (elems : List JVal)
  | obj (fields : List (String × JVal))
deriving Repr, BEq

/-- A Python dict with string keys, in insertion order. -/
abbrev Jobj := List (String × JVal)

/-- Lookup `d.get(k)` / `d[k]` on an embedded dict. -/
def jget (o : Jobj) (k : String) : Option JVal :=
  (o.find? (fun p => p.1 == k)).map (·.2)

/-- Lookup `d.get(k, default)` for string-valued entries (used for tool arguments). -/
def jgetStr (o : Jobj) (k : String) (dflt : String) : String :=
  match jget o k with
  | some (JVal.str s) => s
  | _ => dflt

/-- the Python `needle in hay` on strings: substring containment. -/
def containsSub (hay needle : String) : Bool :=
  hay.toList.tails.any (fun t => needle.toList.isPrefixOf t)

/-- the Python `s.lower()` (ASCII case folding, which covers every string the
embedded code lowers). -/
def strLower (s : String) : String :=
  String.mk (s.toList.map Char.toLower)

/-- Python truthiness test `not x` for an optional string
(true on `None` and on the empty string). -/
def pyFalsy : Option String → Bool
  | none => true
  | some s => s == ""

/-! ## Intent classifier (enhanced_llm_wrapper_supabase.detect_intent) -/

/-- The fixed ordered category → keyword-set table from `detect_intent`
(dict literals iterate in insertion order in Python 3.7+). -/
def intents : List (String × List String) :=
  [ ("study", ["study", "learn", "explain", "what is", "help me understand",
      "exam", "topic", "concept", "algorithm", "syllabus", "material",
      "notes", "homework", "assignment"])
  , ("career", ["career", "job", "salary", "work", "employment",
      "profession", "field", "market", "opportunity", "growth"])
  , ("attendance", ["attendance", "present", "absent", "mark", "class", "course"])
  , ("email", ["email", "gmail", "inbox", "draft", "send", "message",
      "unread", "check"]) ]

/-- The `for intent, keywords in intents.items()` loop body:
return the first category any of whose keywords occurs in the lowered
message, else fall through. -/
def detectScan (messageLower : String) : List (String × List String) → String
  | [] => "general"
  | (intent, keywords) :: rest =>
    if keywords.any (fun keyword => containsSub messageLower keyword) then intent
    else detectScan messageLower rest

/-- Embeds `detect_intent(message)`. -/
def detect_intent (message : String) : String :=
  detectScan (strLower message) intents

/-- The wording of the specification of the classifier (§4.3): the first category
in the fixed ordered list whose keyword set intersects the lower-cased
message by substring containment, `"general"` when none matches.  Stated
with `List.find?` to compare against the scanning loop of the source. -/
def detect_intent_spec (message : String) : String :=
  ((intents.find? (fun p =>
      p.2.any (fun keyword => containsSub (strLower message) keyword))).map
    Prod.fst).getD "general"

theorem detectScan_eq_find (ml : String) (l : List (String × List String)) :
    detectScan ml l =
      ((l.find? (fun p => p.2.any (fun keyword => containsSub ml keyword))).map
        Prod.fst).getD "general" := by
  induction l with
  | nil => rfl
  | cons hd tl ih =>
    rcases hd with ⟨intent, keywords⟩
    by_cases h : keywords.any (fun keyword => containsSub ml keyword) = true
    · simp [detectScan, List.find?, h]
    · simp [detectScan, List.find?, h, ih]

theorem detectScan_mem (ml : String) (l : List (String × List String)) :
    detectScan ml l = "general" ∨ (detectScan ml l) ∈ l.map Prod.fst := by
  induction l with
  | nil => exact Or.inl rfl
  | cons hd tl ih =>
    rcases hd with ⟨intent, keywords⟩
    by_cases h : keywords.any (fun keyword => containsSub ml keyword) = true
    · simp [detectScan, h]
    · rcases ih with h1 | h1
      · simp [detectScan, h, h1]
      · right
        simp [detectScan, h]
        right
        simpa using h1

/-! ## System prompts (enhanced_llm_wrapper_supabase.create_system_prompt) -/

/-- The `prompts` dict of `create_system_prompt`, in insertion order. -/
def prompts : List (String × String) :=
  [ ("study", "You are a helpful student mentor assistant. You have access to a tool that can search through study materials and documents. Use the get_study_material tool when students ask about academic topics, concepts, or need help with studying. Provide comprehensive answers based on the retrieved materials.")
  , ("career", "You are a helpful career guidance assistant. You have access to a tool that can search for career insights and job market information. Use the get_career_insights tool when students ask about career prospects, job trends, salary information, or professional development. Provide helpful and realistic career advice.")
  , ("attendance", "You are a helpful academic assistant. You have access to tools that can mark student attendance and retrieve attendance records using Supabase. Use the mark_attendance tool when students need to record their presence in class. Be efficient and provide clear confirmations.")
  , ("email", "You are a helpful communication assistant. You have access to tools that can fetch unread emails and draft new messages using Google OAuth tokens. Use the get_unread_emails tool to check for important messages, and use the draft_email tool to compose new emails. Help students manage their inbox efficiently.")
  , ("general", "You are a helpful student mentor assistant that provides guidance on various academic and personal topics. Be supportive, informative, and encouraging.") ]

/-- Embeds `create_system_prompt(intent)`: `prompts.get(intent, prompts["general"])`. -/
def create_system_prompt (intent : String) : String :=
  ((prompts.find? (fun p => p.1 == intent)).map Prod.snd).getD
    (((prompts.find? (fun p => p.1 == "general")).map Prod.snd).getD "")

/-! ## External-effect trace

Every call the embedded code issues to an external system (SQL, Gmail,
Calendar, the vector search, the career search) is recorded as one of these
events, so theorems can state "no external system was called". -/

inductive ExtCall where
  /-- A committed `INSERT INTO attendance (user_id, course_name) VALUES (%s, %s)`
  (db_client.mark_attendance); the components are the values bound to the
  `user_id` and `course_name` columns, in that order. -/
  | attendanceInsert (user_id : String) (course_name : String)
  /-- The Supabase `attendance` select of `get_attendance_records`. -/
  | attendanceSelect (user_id : String) (course : Option String)
  /-- The vector search behind `get_study_material`. -/
  | studySearch (query : String)
  /-- The Tavily search behind `get_career_insights`. -/
  | careerSearch (field : String)
  /-- The Gmail unread-messages interaction of `get_unread_emails`. -/
  | gmailListUnread (token : String) (maxResults : Int)
  /-- The Gmail draft-creation interaction of `draft_email`. -/
  | gmailCreateDraft (token : String) (toAddr : String) (subject : String) (body : String)
  /-- The Calendar interactions of `get_upcoming_events` (connection lookup,
  token refresh, events list). -/
  | calendarFetch (user_id : String) (maxResults : Int)
deriving Repr, BEq, DecidableEq

/-- Oracles standing for the external collaborators of the capability
providers.  Each returns `Except e r` where `Except.error msg` models the
Python call raising an exception whose `str()` is `msg`. -/
structure World where
  /-- Oracle for `get_study_material`: the whole body (embedding model + vector search)
  is the out-of-scope search capability (spec §1); it has its own
  `try/except` and always returns a dict, so the oracle returns the
  envelope directly. -/
  study : String → Jobj
  /-- Oracle for `get_career_insights`: likewise returns its envelope directly. -/
  career : String → Jobj
  /-- Oracle for `db_client.mark_attendance`, i.e. the SQL
  `INSERT INTO attendance (user_id, course_name)`; arguments are the values
  bound to the `user_id` and `course_name` columns. -/
  dbAttendanceInsert : String → String → Except String Unit
  /-- Value of `datetime.now().isoformat()` at the time attendance is marked. -/
  nowIso : String
  /-- The Supabase select of `get_attendance_records`: rows of
  (id, course_name, marked_at). -/
  attendanceRows : String → Option String → Except String (List (Int × String × String))
  /-- The Gmail interaction of `get_unread_emails`: the processed email
  objects (the per-message metadata loop) and the total unread count. -/
  gmailUnread : String → Int → Except String (List JVal × Nat)
  /-- The Gmail interaction of `draft_email`: the created draft id. -/
  gmailDraft : String → String → String → String → Except String String

/-! ## Attendance capability (attendance_tools_supabase.py, db_client.py) -/

/-- Embeds `db_client.mark_attendance(user_id, course_name)`: executes the
insert; the trace records the committed row (column order user_id,
course_name). -/
def db_mark_attendance (w : World) (user_id : String) (course_name : String) :
    Except String Unit × List ExtCall :=
  match w.dbAttendanceInsert user_id course_name with
  | Except.ok _ => (Except.ok (), [ExtCall.attendanceInsert user_id course_name])
  | Except.error e => (Except.error e, [])

/-- Embeds `attendance_tools_supabase.mark_attendance(course_name, user_id)`.
The source forwards its arguments positionally as
`db_mark_attendance(course_name, user_id)` although the signature of the callee
is `(user_id, course_name)`. -/
def mark_attendance (w : World) (course_name : String) (user_id : String) :
    Jobj × List ExtCall :=
  match db_mark_attendance w course_name user_id with
  | (Except.ok _, tr) =>
    ( [ ("success", JVal.bool true)
      , ("message", JVal.str s!"Successfully marked attendance for course {course_name}")
      , ("attendance_data", JVal.obj
          [ ("user_id", JVal.str user_id)
          , ("course", JVal.str course_name)
          , ("marked_at", JVal.str w.nowIso)
          , ("status", JVal.str "Present") ]) ]
    , tr)
  | (Except.error e, tr) =>
    ( [ ("success", JVal.bool false)
      , ("error", JVal.str s!"Error marking attendance: {e}")
      , ("course", JVal.str course_name)
      , ("user_id", JVal.str user_id) ]
    , tr)

/-- Embeds `get_attendance_records(user_id, course_name=None)`:
formats the rows returned by the Supabase query. -/
def get_attendance_records (w : World) (user_id : String)
    (course_name : Option String) : Jobj × List ExtCall :=
  match w.attendanceRows user_id course_name with
  | Except.ok rows =>
    let records : List JVal := rows.map (fun r =>
      JVal.obj
        [ ("id", JVal.num r.1)
        , ("course_name", JVal.str r.2.1)
        , ("marked_at", JVal.str r.2.2)
        , ("date", JVal.str (if containsSub r.2.2 "T"
            then ((r.2.2.splitOn "T").headD r.2.2) else r.2.2)) ])
    let total : Nat := records.length
    ( [ ("success", JVal.bool true)
      , ("records", JVal.arr records)
      , ("total_records", JVal.num total)
      , ("user_id", JVal.str user_id)
      , ("course_filter", match course_name with
          | some c => JVal.str c
          | none => JVal.null) ]
    , [ExtCall.attendanceSelect user_id course_name])
  | Except.error e =>
    ( [ ("success", JVal.bool false)
      , ("error", JVal.str s!"Error retrieving attendance records: {e}")
      , ("records", JVal.arr [])
      , ("user_id", JVal.str user_id) ]
    , [ExtCall.attendanceSelect user_id course_name])

/-! ## Email capabilities (email_tools_supabase.py) -/

/-- Embeds `get_unread_emails(google_access_token, max_results=10)`.  The
Gmail service interaction (credentials, list, per-message metadata loop) is
the `gmailUnread` oracle; the `except` branch follows the
authentication-error classification. -/
def get_unread_emails (w : World) (google_access_token : String)
    (max_results : Int) : Jobj × List ExtCall :=
  let tr := [ExtCall.gmailListUnread google_access_token max_results]
  match w.gmailUnread google_access_token max_results with
  | Except.ok (emails, total) =>
    let found : Nat := emails.length
    ( [ ("success", JVal.bool true)
      , ("emails", JVal.arr emails)
      , ("total_count", JVal.num total)
      , ("message", JVal.str s!"Found {found} unread emails")
      , ("fetched_at", JVal.str "current_timestamp") ]
    , tr)
  | Except.error e =>
    if containsSub e "invalid_grant" || containsSub (strLower e) "unauthorized" then
      ( [ ("success", JVal.bool false)
        , ("error", JVal.str "Token expired or invalid. Please re-authenticate with Google.")
        , ("emails", JVal.arr [])
        , ("auth_required", JVal.bool true)
        , ("message", JVal.str "Please log in again to access your Gmail") ]
      , tr)
    else
      ( [ ("success", JVal.bool false)
        , ("error", JVal.str e)
        , ("emails", JVal.arr [])
        , ("message", JVal.str s!"Error fetching emails: {e}") ]
      , tr)

/-- Embeds `draft_email(google_access_token, to, subject, body)`.  The Gmail
draft creation (message encoding + API call) is the `gmailDraft` oracle; the
`except` branch follows the source, whose authentication case returns no
`auth_required` key. -/
def draft_email (w : World) (google_access_token : String) (toAddr : String)
    (subject : String) (body : String) : Jobj × List ExtCall :=
  let tr := [ExtCall.gmailCreateDraft google_access_token toAddr subject body]
  match w.gmailDraft google_access_token toAddr subject body with
  | Except.ok draft_id =>
    ( [ ("success", JVal.bool true)
      , ("draft_id", JVal.str draft_id)
      , ("message", JVal.str s!"Draft created: {subject}")
      , ("to", JVal.str toAddr)
      , ("subject", JVal.str subject)
      , ("draft_url", JVal.str s!"https://mail.google.com/mail/u/0/#drafts/{draft_id}") ]
    , tr)
  | Except.error e =>
    if containsSub e "invalid_grant" || containsSub (strLower e) "unauthorized" then
      ( [ ("success", JVal.bool false)
        , ("error", JVal.str "Token expired or invalid. Please re-authenticate with Google.")
        , ("draft_id", JVal.null)
        , ("message", JVal.str "Please log in again to create email drafts") ]
      , tr)
    else
      ( [ ("success", JVal.bool false)
        , ("error", JVal.str e)
        , ("draft_id", JVal.null)
        , ("message", JVal.str s!"Error creating draft: {e}") ]
      , tr)

/-! ## Calendar capability (calendar_tools_supabase.get_upcoming_events) -/

/-- Oracles for the external collaborators of `get_upcoming_events`:
the Supabase `user_connections` lookup, the Google token-refresh POST and
the Calendar events list. -/
structure CalendarWorld where
  /-- The `user_connections` single-row select: `some refresh_token` when a
  Google connection row exists, `none` when the response has no data;
  `Except.error` models the query raising. -/
  connection : String → Except String (Option String)
  /-- The token-refresh POST: `Except.ok (Except.error e)` models a JSON
  body containing an `"error"` field `e`; `Except.ok (Except.ok tok)` a body
  with an `access_token`; the outer `Except.error` models the request
  raising. -/
  refresh : String → Except String (Except String String)
  /-- The Calendar `events().list` interaction including the per-event
  formatting loop: the processed event objects. -/
  events : String → Int → Except String (List JVal)
  /-- Value of `datetime.utcnow().isoformat()`. -/
  nowIso : String

/-- Embeds `get_upcoming_events(user_id, max_results=10)` from
calendar_tools_supabase.py, including its early returns for a missing
connection and a failed token refresh, and its final `except` branch. -/
def get_upcoming_events (cw : CalendarWorld) (user_id : String)
    (max_results : Int) : Jobj × List ExtCall :=
  let tr := [ExtCall.calendarFetch user_id max_results]
  match cw.connection user_id with
  | Except.error e =>
    -- the final `except Exception` branch of the source
    if containsSub e "invalid_grant" || containsSub (strLower e) "unauthorized" then
      ( [ ("success", JVal.bool false)
        , ("error", JVal.str "Token expired or invalid. Please re-authenticate with Google.")
        , ("events", JVal.arr [])
        , ("auth_required", JVal.bool true)
        , ("message", JVal.str "Please log in again to access your calendar") ]
      , tr)
    else
      ( [ ("success", JVal.bool false)
        , ("error", JVal.str e)
        , ("events", JVal.arr [])
        , ("message", JVal.str s!"Error fetching calendar events: {e}") ]
      , tr)
  | Except.ok none =>
    ( [ ("success", JVal.bool false)
      , ("error", JVal.str "Google not connected")
      , ("message", JVal.str "Please connect your Google account first to access calendar features.")
      , ("events", JVal.arr [])
      , ("auth_required", JVal.bool true) ]
    , tr)
  | Except.ok (some refresh_token) =>
    match cw.refresh refresh_token with
    | Except.error e =>
      if containsSub e "invalid_grant" || containsSub (strLower e) "unauthorized" then
        ( [ ("success", JVal.bool false)
          , ("error", JVal.str "Token expired or invalid. Please re-authenticate with Google.")
          , ("events", JVal.arr [])
          , ("auth_required", JVal.bool true)
          , ("message", JVal.str "Please log in again to access your calendar") ]
        , tr)
      else
        ( [ ("success", JVal.bool false)
          , ("error", JVal.str e)
          , ("events", JVal.arr [])
          , ("message", JVal.str s!"Error fetching calendar events: {e}") ]
        , tr)
    | Except.ok (Except.error tokenError) =>
      ( [ ("success", JVal.bool false)
        , ("error", JVal.str s!"Token refresh failed: {tokenError}")
        , ("message", JVal.str "Failed to refresh Google access token. Please reconnect your account.")
        , ("events", JVal.arr [])
        , ("auth_required", JVal.bool true) ]
      , tr)
    | Except.ok (Except.ok access_token) =>
      match cw.events access_token max_results with
      | Except.error e =>
        if containsSub e "invalid_grant" || containsSub (strLower e) "unauthorized" then
          ( [ ("success", JVal.bool false)
            , ("error", JVal.str "Token expired or invalid. Please re-authenticate with Google.")
            , ("events", JVal.arr [])
            , ("auth_required", JVal.bool true)
            , ("message", JVal.str "Please log in again to access your calendar") ]
          , tr)
        else
          ( [ ("success", JVal.bool false)
            , ("error", JVal.str e)
            , ("events", JVal.arr [])
            , ("message", JVal.str s!"Error fetching calendar events: {e}") ]
          , tr)
      | Except.ok events =>
        let total : Nat := events.length
        ( [ ("success", JVal.bool true)
          , ("events", JVal.arr events)
          , ("total_count", JVal.num total)
          , ("message", JVal.str s!"Found {total} upcoming events")
          , ("fetched_at", JVal.str cw.nowIso) ]
        , tr)

/-! ## Tool dispatch (enhanced_llm_wrapper_supabase.execute_tool) -/

/-- Embeds `get_study_material(query)`: its body is the out-of-scope vector
search capability with its own `try/except`, so the envelope comes from the
oracle; the trace records that the external search ran. -/
def get_study_material (w : World) (query : String) : Jobj × List ExtCall :=
  (w.study query, [ExtCall.studySearch query])

/-- Embeds `get_career_insights(field)`: likewise an external search
capability with its own `try/except`. -/
def get_career_insights (w : World) (field : String) : Jobj × List ExtCall :=
  (w.career field, [ExtCall.careerSearch field])

/-- The names `execute_tool` dispatches on (the fixed registry,
`get_all_tools` order). -/
def registeredTools : List String :=
  [ "get_study_material", "get_career_insights", "mark_attendance"
  , "get_attendance_records", "get_unread_emails", "draft_email" ]

/-- Text of the CPython TypeError raised when a dict returned by a sync
tool function is awaited (`mark_attendance` and `get_attendance_records`
are plain defs in attendance_tools_supabase.py, yet execute_tool writes
`return await mark_attendance(...)` / `return await
get_attendance_records(...)`). -/
def awaitDictError : String :=
  "object dict can\x27t be used in \x27await\x27 expression"

/-- Embeds `execute_tool(tool_name, tool_args, google_access_token=None,
user_id=None)`.  Returns the result envelope and the external calls made.
The tool functions each catch their own exceptions and return dicts, so the
outer `except` of the source is unreachable through the oracles. -/
def execute_tool (w : World) (tool_name : String) (tool_args : Jobj)
    (google_access_token : Option String)
    (user_id : Option String) : Jobj × List ExtCall :=
  if tool_name == "get_study_material" then
    get_study_material w (jgetStr tool_args "query" "")
  else if tool_name == "get_career_insights" then
    get_career_insights w (jgetStr tool_args "field" "")
  else if tool_name == "mark_attendance" then
    if pyFalsy user_id then
      ( [ ("success", JVal.bool false)
        , ("error", JVal.str "User ID is required for attendance marking")
        , ("message", JVal.str "Please ensure you\x27re logged in to mark attendance") ]
      , [])
    else
      -- the source returns `await mark_attendance(...)`, but mark_attendance
      -- is a sync def: the call (and its insert) completes, then awaiting
      -- the returned dict raises TypeError, caught by the outer
      -- `except Exception`, which returns the generic failure envelope in
      -- place of the tool envelope
      let r := mark_attendance w (jgetStr tool_args "course_name" "") (user_id.getD "")
      ( [ ("success", JVal.bool false)
        , ("error", JVal.str awaitDictError)
        , ("message", JVal.str s!"Error executing mark_attendance: {awaitDictError}") ]
      , r.2)
  else if tool_name == "get_attendance_records" then
    if pyFalsy user_id then
      ( [ ("success", JVal.bool false)
        , ("error", JVal.str "User ID is required for attendance records")
        , ("message", JVal.str "Please ensure you\x27re logged in to view attendance") ]
      , [])
    else
      -- likewise a sync def awaited: the select runs, then the await of the
      -- returned dict raises and the outer handler substitutes the generic
      -- failure envelope
      let r := get_attendance_records w (user_id.getD "")
        (match jget tool_args "course_name" with
         | some (JVal.str c) => some c
         | _ => none)
      ( [ ("success", JVal.bool false)
        , ("error", JVal.str awaitDictError)
        , ("message", JVal.str s!"Error executing get_attendance_records: {awaitDictError}") ]
      , r.2)
  else if tool_name == "get_unread_emails" then
    if pyFalsy google_access_token then
      ( [ ("success", JVal.bool false)
        , ("error", JVal.str "Google access token is required")
        , ("message", JVal.str "Please ensure you\x27re logged in with Google to access emails") ]
      , [])
    else
      get_unread_emails w (google_access_token.getD "")
        (match jget tool_args "max_results" with
         | some (JVal.num n) => n
         | _ => 10)
  else if tool_name == "draft_email" then
    if pyFalsy google_access_token then
      ( [ ("success", JVal.bool false)
        , ("error", JVal.str "Google access token is required")
        , ("message", JVal.str "Please ensure you\x27re logged in with Google to draft emails") ]
      , [])
    else
      draft_email w (google_access_token.getD "")
        (jgetStr tool_args "to" "") (jgetStr tool_args "subject" "")
        (jgetStr tool_args "body" "")
  else
    ( [ ("success", JVal.bool false)
      , ("error", JVal.str s!"Unknown tool: {tool_name}")
      , ("message", JVal.str s!"Tool {tool_name} is not available") ]
    , [])

/-! ## JSON serialization (`json.dumps` of a tool result) -/

/-- JSON string escaping (quote and backslash; the envelopes contain no
control characters). -/
def jstrEscape (s : String) : String :=
  s.foldl (fun acc c =>
    if c = '\\' then acc ++ "\\\\"
    else if c = '"' then acc ++ "\\\"" else acc.push c) ""

mutual

/-- Serialization `json.dumps` with the Python default separators. -/
def dumps : JVal → String
  | JVal.str s => "\"" ++ jstrEscape s ++ "\""
  | JVal.bool true => "true"
  | JVal.bool false => "false"
  | JVal.num n => toString n
  | JVal.null => "null"
  | JVal.arr xs => "[" ++ dumpsList xs ++ "]"
  | JVal.obj fs => "\x7b" ++ dumpsFields fs ++ "\x7d"

def dumpsList : List JVal → String
  | [] => ""
  | [x] => dumps x
  | x :: y :: xs => dumps x ++ ", " ++ dumpsList (y :: xs)

def dumpsFields : List (String × JVal) → String
  | [] => ""
  | [(k, v)] => "\"" ++ jstrEscape k ++ "\": " ++ dumps v
  | (k, v) :: p :: fs =>
    "\"" ++ jstrEscape k ++ "\": " ++ dumps v ++ ", " ++ dumpsFields (p :: fs)

end

/-! ## Model messages and the completion oracle -/

/-- One requested capability invocation inside a model response
(`tool_call["function"]["name"]` and the `json.loads` of
`tool_call["function"]["arguments"]`). -/
structure ToolCall where
  id : String
  name : String
  arguments : Jobj
deriving Repr, BEq

/-- The response message (`response["choices"][0]["message"]`).
`content = none` models JSON `null`; an absent `tool_calls` field is the
empty list. -/
structure LLMMessage where
  role : String
  content : Option String
  tool_calls : List ToolCall
deriving Repr, BEq

/-- An entry of the `messages` list submitted to the model. -/
inductive ChatMsg where
  | sys (content : String)
  | user (content : String)
  | assistant (m : LLMMessage)
  | tool (tool_call_id : String) (name : String) (content : String)
deriving Repr, BEq

/-- The model-completion capability (spec §6): the response of the first call,
and the text of the second call as a function of the submitted messages.
`Except.error` models the call raising (UpstreamModelError). -/
structure LLMOracle where
  first : Except String LLMMessage
  second : List ChatMsg → Except String (Option String)

/-- Everything one run of the engine produced: the returned reply (`none`
models Python `None`), how many model completions were requested, the
`chat_memory.add_message` appends (user id, role, content) in order, the
external capability calls, the message list of the second submission (when
one was made), and the tool names handed to `execute_tool`. -/
structure RunOut where
  reply : Option String
  llmCalls : Nat
  memAppends : List (String × String × Option String)
  ext : List ExtCall
  secondSubmission : Option (List ChatMsg)
  executed : List String
deriving Repr, BEq

/-! ## The engine (enhanced_llm_wrapper_supabase.get_llm_response_with_supabase) -/

/-- Embeds `get_llm_response_with_supabase(message, google_access_token=None,
user_id=None)`.

Modelled from the spec: `app.core.llm_factory.get_llm_provider` and
`app.core.chat_memory` are imported by the source but absent from the source
tree, and `settings.LLM_PROVIDER` is not declared in config.py.  The
provider name is the `provider` argument, the rendered history
(`format_conversation_for_llm(user_id, limit=10)`) is the `histRender`
oracle, and `chat_memory.add_message` appends (a per-user memory stream,
distinct from the durable Conversation Store of db_client) are recorded in
`memAppends`.

The `tools` list is passed to the closure of the oracle implicitly: it is
non-empty exactly when `provider = "openai"`, and the branch on
`assistant_message.get("tool_calls") and settings.LLM_PROVIDER == "openai"`
is embedded as the match below (Python list truthiness = non-emptiness). -/
def get_llm_response_with_supabase (w : World) (llm : LLMOracle)
    (provider : String) (histRender : String → String) (message : String)
    (google_access_token : Option String)
    (user_id : Option String) : RunOut :=
  let memU : List (String × String × Option String) :=
    if pyFalsy user_id then [] else [(user_id.getD "", "user", some message)]
  let conversation_context : String :=
    if pyFalsy user_id then "" else histRender (user_id.getD "")
  let intent := detect_intent message
  let sp := create_system_prompt intent
  let system_prompt :=
    if conversation_context != "" &&
        conversation_context != "No previous conversation history." then
      sp ++ "\n\nRecent conversation context:\n" ++ conversation_context
    else sp
  let messages : List ChatMsg := [ChatMsg.sys system_prompt, ChatMsg.user message]
  let memAi (r : Option String) : List (String × String × Option String) :=
    if pyFalsy user_id then [] else [(user_id.getD "", "ai", r)]
  match llm.first with
  | Except.error e =>
    -- the outer `except Exception` branch
    let reply := s!"Error: {e}"
    { reply := some reply, llmCalls := 1, memAppends := memU ++ memAi (some reply)
    , ext := [], secondSubmission := none, executed := [] }
  | Except.ok assistant_message =>
    match assistant_message.tool_calls, provider == "openai" with
    | tool_call :: _, true =>
      -- the `for tool_call in assistant_message["tool_calls"]` loop returns
      -- inside its first iteration, so only the first requested invocation
      -- is executed and a single tool message is appended
      let r := execute_tool w tool_call.name tool_call.arguments
        google_access_token user_id
      let tool_message :=
        ChatMsg.tool tool_call.id tool_call.name (dumps (JVal.obj r.1))
      let final_messages :=
        messages ++ [ChatMsg.assistant assistant_message, tool_message]
      match llm.second final_messages with
      | Except.error e =>
        let reply := s!"Error: {e}"
        { reply := some reply, llmCalls := 2
        , memAppends := memU ++ memAi (some reply)
        , ext := r.2, secondSubmission := some final_messages
        , executed := [tool_call.name] }
      | Except.ok assistant_reply =>
        { reply := assistant_reply, llmCalls := 2
        , memAppends := memU ++ memAi assistant_reply
        , ext := r.2, secondSubmission := some final_messages
        , executed := [tool_call.name] }
    | _, _ =>
      -- no tool call requested, or the provider is not "openai":
      -- return `assistant_message.get("content", "")`
      let reply := assistant_message.content.getD ""
      { reply := some reply, llmCalls := 1
      , memAppends := memU ++ memAi (some reply)
      , ext := [], secondSubmission := none, executed := [] }

/-! ## Chat endpoint (api/v1/endpoints/chat_supabase.chat_endpoint) -/

/-- The result of an endpoint: a successful JSON body or an HTTPException
with its status code and detail. -/
inductive HttpOut where
  | ok (reply : Option String)
  | err (status : Nat) (detail : String)
deriving Repr, BEq, DecidableEq

/-- One append to the durable Conversation Store: the conversation-scoped
stream (`add_message_to_conversation`) or the legacy per-user stream
(`db_client.add_message`, the `messages` table keyed by user id). -/
inductive StoreAppend where
  | conv (conversation_id : String) (role : String) (content : Option String)
  | legacy (user_id : Nat) (role : String) (content : Option String)
deriving Repr, BEq, DecidableEq

/-- Embeds `db_client.add_message(user_id, role, content)`: the SQL
`INSERT INTO messages (user_id, role, content)` appends one row to the
legacy per-user stream with the content exactly as given; the function
performs no validation of the content. -/
def add_message (msgs : List (Nat × String × Option String)) (user_id : Nat)
    (role : String) (content : Option String) :
    List (Nat × String × Option String) :=
  msgs ++ [(user_id, role, content)]

/-- The transport-layer collaborators of the chat endpoint. -/
structure EndpointWorld where
  /-- Oracle for `db_client.get_user_by_google_id`: the internal user id when a user
  row exists. -/
  getUserByGoogleId : String → Option Nat
  /-- Modelled from the spec: the token store keyed by external identity
  (§6).  The source reads `app.tools.email_tools.token_store`, a module
  absent from the source tree; on any failure the token is `None`.  The
  lookup is a pure read with no observable effect in this model. -/
  tokenStore : String → Option String

/-- What one chat request produced: the HTTP result and the Conversation
Store appends, in order. -/
structure EndpointOut where
  http : HttpOut
  store : List StoreAppend
deriving Repr, BEq

/-- Text of the CPython TypeError raised when the endpoint calls
`get_llm_response_with_supabase` with the `conversation_id` keyword, a
parameter the engine in the source tree does not declare. -/
def conversationIdKwargError : String :=
  "get_llm_response_with_supabase() got an unexpected keyword argument \x27conversation_id\x27"

/-- Text of the CPython TypeError raised when the bare int returned by
`db_client.create_user` is subscripted (the endpoint writes
`create_user(...)["id"]`, but create_user in the tree returns an int). -/
def intSubscriptError : String :=
  "\x27int\x27 object is not subscriptable"

/-- The store stream a chat append targets: the conversation stream when
`request.conversation_id` is truthy, else the legacy per-user stream
(`if request.conversation_id: add_message_to_conversation(...) else:
add_message(user_id, ...)`, which appears twice in the endpoint). -/
def appendFor (conversation_id : Option String) (user_id : Nat)
    (role : String) (content : Option String) : StoreAppend :=
  match conversation_id with
  | some cid =>
    if cid == "" then StoreAppend.legacy user_id role content
    else StoreAppend.conv cid role content
  | none => StoreAppend.legacy user_id role content

/-- Embeds `chat_endpoint(request, user)` of chat_supabase.py.  The
verified token yields `google_id` and `email`; `message` and
`conversation_id` are the request fields.  `add_message_to_conversation`
is absent from the source tree; per §4.4 it appends one turn to the
conversation-scoped stream, recorded as a `StoreAppend.conv` event.

Two TypeError paths of the source are embedded as such: when no user row
exists the endpoint evaluates `create_user(...)["id"]`, but create_user in
db_client.py returns a bare int, so the subscript raises before any
append; and the engine call names `conversation_id=`, a keyword
`get_llm_response_with_supabase` does not declare, so argument binding
raises TypeError before the body of the engine (and its `try/except`)
runs.  Both exceptions are caught by the generic `except Exception`
handler, which answers 500 with
`f"An error occurred while processing your request: {str(e)}"`.  The
token-store lookup preceding the engine call is a pure oracle read and is
therefore elided.  Consequently the engine (`w`, `llm`, `provider`,
`histRender`) is never reached on any request. -/
def chat_endpoint (w : World) (ew : EndpointWorld) (llm : LLMOracle)
    (provider : String) (histRender : String → String)
    (message : String) (conversation_id : Option String)
    (google_id : Option String) (email : String) : EndpointOut :=
  if pyFalsy google_id then
    { http := HttpOut.err 400
        "Google ID not found. Please ensure you logged in with Google."
    , store := [] }
  else
    let gid := google_id.getD ""
    match ew.getUserByGoogleId gid with
    | none =>
      -- create_user(...)["id"] raises TypeError on the bare int; the
      -- generic handler answers 500 with no append performed
      { http := HttpOut.err 500
          s!"An error occurred while processing your request: {intSubscriptError}"
      , store := [] }
    | some user_id =>
      -- the user-turn append runs, then the engine call raises TypeError at
      -- argument binding on the undeclared conversation_id keyword, so the
      -- assistant-turn append below the call is never reached
      { http := HttpOut.err 500
          s!"An error occurred while processing your request: {conversationIdKwargError}"
      , store := [ appendFor conversation_id user_id "user" (some message) ] }

/-! ## Conversation deletion (api/v1/endpoints/conversations.py) -/

/-- The relational conversation store: conversation rows (id, owner) and
message rows (conversation id, role, content). -/
structure ConvStore where
  conversations : List (String × String)
  messages : List (String × String × Option String)
deriving Repr, BEq, DecidableEq

/-- Modelled from the spec: `db_delete_conversation(conversation_id,
google_id)` is called by `delete_conversation_endpoint` but its definition
is absent from the source tree.  Per §4.4 deletion fails with a not-found
error when the id is unknown and with an authorization error when the
requesting owner does not match the stored owner, and otherwise deletes the
conversation, cascading to its turns (§3).  The endpoint distinguishes the
two failures by the substrings "not found" and "access denied" of the
raised `ValueError`, so the modelled errors carry those texts. -/
def db_delete_conversation (st : ConvStore) (conversation_id : String)
    (google_id : String) : Except String ConvStore :=
  match st.conversations.find? (fun c => c.1 == conversation_id) with
  | none => Except.error "Conversation not found"
  | some c =>
    if c.2 == google_id then
      Except.ok
        { conversations := st.conversations.filter (fun c2 => !(c2.1 == conversation_id))
        , messages := st.messages.filter (fun m => !(m.1 == conversation_id)) }
    else
      Except.error "Access denied: conversation is owned by another user"

/-- Embeds `delete_conversation_endpoint(conversation_id, user)` including
its `except ValueError` mapping of "not found" to 404 and "access denied"
to 403.  Returns the HTTP result and the store after the request. -/
def delete_conversation_endpoint (st : ConvStore) (conversation_id : String)
    (google_id : Option String) : HttpOut × ConvStore :=
  if pyFalsy google_id then (HttpOut.err 400 "Google ID not found", st)
  else
    match db_delete_conversation st conversation_id (google_id.getD "") with
    | Except.ok st2 => (HttpOut.ok (some "Conversation deleted successfully"), st2)
    | Except.error e =>
      if containsSub (strLower e) "not found" then
        (HttpOut.err 404 "Conversation not found", st)
      else if containsSub (strLower e) "access denied" then
        (HttpOut.err 403 "Access denied", st)
      else
        (HttpOut.err 500 e, st)

/-! ## Projection helpers -/

/-- The content of a Conversation Store append. -/
def appendContent : StoreAppend → Option String
  | StoreAppend.conv _ _ c => c
  | StoreAppend.legacy _ _ c => c

/-- Whether the content of a turn append is present and non-empty. -/
def nonEmptyContent : Option String → Bool
  | some s => !(s == "")
  | none => false

/-- The number of tool-role result messages in a submission. -/
def countToolMsgs (ms : List ChatMsg) : Nat :=
  (ms.filter (fun m => match m with
    | ChatMsg.tool _ _ _ => true
    | _ => false)).length

/-- How many capability invocations the first model response requested. -/
def firstToolCallCount (llm : LLMOracle) : Nat :=
  match llm.first with
  | Except.ok am => am.tool_calls.length
  | Except.error _ => 0

/-! ## Test fixtures (concrete worlds and oracles for witnesses) -/

/-- A world whose external systems all succeed. -/
def wOk : World :=
  { study := fun _ => [("success", JVal.bool true), ("context", JVal.str "ctx")]
  , career := fun _ => [("success", JVal.bool true), ("insights", JVal.str "ins")]
  , dbAttendanceInsert := fun _ _ => Except.ok ()
  , nowIso := "2026-10-12T00:00:00"
  , attendanceRows := fun _ _ => Except.ok []
  , gmailUnread := fun _ _ => Except.ok ([], 0)
  , gmailDraft := fun _ _ _ _ => Except.ok "d1" }

/-- An oracle whose first response is plain text with no tool calls. -/
def llmPlain (t : String) : LLMOracle :=
  { first := Except.ok { role := "assistant", content := some t, tool_calls := [] }
  , second := fun _ => Except.ok (some "final") }

/-! ## C7 — intent classifier -/

/-- C7: `detect_intent` is a total deterministic function equal, on every
message, to the first-match rule over the fixed ordered
list {study, career, attendance, email} with substring containment on the
lower-cased message and "general" as the no-match default; its result is
always exactly one of the five categories. -/
theorem C7_detect_intent_first_match (message : String) :
    detect_intent message = detect_intent_spec message ∧
    detect_intent message ∈ ["study", "career", "attendance", "email", "general"] := by
  constructor
  · exact detectScan_eq_find (strLower message) intents
  · rcases detectScan_mem (strLower message) intents with h | h
    · simp [detect_intent, h]
    · simp only [detect_intent]
      have h2 : detectScan (strLower message) intents ∈
          (["study", "career", "attendance", "email"] : List String) := by
        simpa [intents] using h
      simp only [List.mem_cons, List.not_mem_nil, or_false] at h2 ⊢
      tauto

/-! ## C2 — model call count -/

/-- C2: with the first model response in hand, the engine makes exactly
one model call and returns the text of that response verbatim when it contains
no capability invocation request, and exactly two model calls — never
more, whatever the number of requested invocations — when it does. -/
theorem C2_model_call_count (w : World) (llm : LLMOracle) (provider : String)
    (histRender : String → String) (message t : String)
    (tok uid : Option String) (am : LLMMessage)
    (hfirst : llm.first = Except.ok am) :
    (am.tool_calls = [] →
      (get_llm_response_with_supabase w llm provider histRender message tok uid).llmCalls = 1 ∧
      (get_llm_response_with_supabase w llm provider histRender message tok uid).reply =
        some (am.content.getD "")) ∧
    (am.tool_calls = [] → am.content = some t →
      (get_llm_response_with_supabase w llm provider histRender message tok uid).reply = some t) ∧
    (am.tool_calls ≠ [] → provider = "openai" →
      (get_llm_response_with_supabase w llm provider histRender message tok uid).llmCalls = 2) := by
  refine ⟨?_, ?_, ?_⟩
  · intro h
    simp [get_llm_response_with_supabase, hfirst, h]
  · intro h hc
    simp [get_llm_response_with_supabase, hfirst, h, hc]
  · intro h hp
    subst hp
    rcases hc : am.tool_calls with _ | ⟨tc, rest⟩
    · exact absurd hc h
    · simp only [get_llm_response_with_supabase, hfirst, hc, beq_self_eq_true]
      split <;> rfl

/-- Witness for C2 at a concrete run with no tool calls. -/
theorem C2_model_call_count_witness :
    (get_llm_response_with_supabase wOk (llmPlain "hi") "openai"
      (fun _ => "") "hello" none none).llmCalls = 1 ∧
    (get_llm_response_with_supabase wOk (llmPlain "hi") "openai"
      (fun _ => "") "hello" none none).reply = some "hi" := by
  have h := C2_model_call_count wOk (llmPlain "hi") "openai" (fun _ => "")
    "hello" "hi" none none
    { role := "assistant", content := some "hi", tool_calls := [] } rfl
  exact ⟨(h.1 rfl).1, h.2.1 rfl rfl⟩

/-! ## C1 — multiple requested invocations -/

/-- An oracle whose first response requests two capability invocations. -/
def llmTwoCalls : LLMOracle :=
  { first := Except.ok
      { role := "assistant", content := none
      , tool_calls :=
          [ { id := "call_1", name := "get_study_material"
            , arguments := [("query", JVal.str "x")] }
          , { id := "call_2", name := "get_career_insights"
            , arguments := [("field", JVal.str "y")] } ] }
  , second := fun _ => Except.ok (some "done") }

/-- The engine run on a first response that requests two invocations. -/
def c1run : RunOut :=
  get_llm_response_with_supabase wOk llmTwoCalls "openai" (fun _ => "")
    "hello" none none

/-- C1: the claim says all requested invocations are executed, each
independently, with one result message per invocation in the second
submission.  On a first response requesting two invocations the engine
executes only the first (the loop returns inside its first iteration): the
second capability is never called and the second submission carries a
single result message. -/
theorem C1_only_first_invocation_executed :
    firstToolCallCount llmTwoCalls = 2 ∧
    c1run.executed = ["get_study_material"] ∧
    c1run.ext = [ExtCall.studySearch "x"] ∧
    c1run.secondSubmission.map countToolMsgs = some 1 := by
  refine ⟨rfl, rfl, rfl, rfl⟩

/-! ## C5 — unknown capability name -/

/-- C5: an invocation request naming a capability outside the fixed
registry causes no external call and yields a synthesized failure
envelope, and a turn whose first response requests only that unknown
capability still completes with the text of the second response as reply, with
no external system called. -/
theorem C5_unknown_capability (w : World) (llm : LLMOracle)
    (histRender : String → String) (message t tool_name : String)
    (tok uid : Option String) (args : Jobj) (am : LLMMessage) (tc : ToolCall)
    (hname : tool_name ∉ registeredTools) :
    ((execute_tool w tool_name args tok uid).2 = [] ∧
     jget (execute_tool w tool_name args tok uid).1 "success" =
       some (JVal.bool false)) ∧
    (llm.first = Except.ok am → am.tool_calls = [tc] → tc.name = tool_name →
     (∀ ms, llm.second ms = Except.ok (some t)) →
     (get_llm_response_with_supabase w llm "openai" histRender message tok uid).reply =
        some t ∧
     (get_llm_response_with_supabase w llm "openai" histRender message tok uid).ext = []) := by
  simp only [registeredTools, List.mem_cons, List.not_mem_nil, or_false,
    not_or] at hname
  obtain ⟨h1, h2, h3, h4, h5, h6⟩ := hname
  have hexec : ∀ a : Jobj, execute_tool w tool_name a tok uid =
      ( [ ("success", JVal.bool false)
        , ("error", JVal.str s!"Unknown tool: {tool_name}")
        , ("message", JVal.str s!"Tool {tool_name} is not available") ]
      , []) := by
    intro a
    simp only [execute_tool, beq_eq_false_iff_ne.mpr h1, beq_eq_false_iff_ne.mpr h2,
      beq_eq_false_iff_ne.mpr h3, beq_eq_false_iff_ne.mpr h4,
      beq_eq_false_iff_ne.mpr h5, beq_eq_false_iff_ne.mpr h6,
      Bool.false_eq_true, if_false]
  refine ⟨⟨by rw [hexec args], by rw [hexec args]; rfl⟩, ?_⟩
  intro hfirst hcalls hn hsec
  subst hn
  simp only [get_llm_response_with_supabase, hfirst, hcalls, beq_self_eq_true,
    hsec, hexec]
  exact ⟨trivial, trivial⟩

/-- A request for the unregistered capability name "frobnicate". -/
def tcUnknown : ToolCall := { id := "c1", name := "frobnicate", arguments := [] }

/-- A first response requesting only the unregistered capability. -/
def amUnknown : LLMMessage :=
  { role := "assistant", content := none, tool_calls := [tcUnknown] }

/-- An oracle requesting the unregistered capability, then answering "ok". -/
def llmUnknown : LLMOracle :=
  { first := Except.ok amUnknown, second := fun _ => Except.ok (some "ok") }

/-- Witness for C5: the unknown name "frobnicate" at a concrete run. -/
theorem C5_unknown_capability_witness :
    (execute_tool wOk "frobnicate" [] none none).2 = [] ∧
    (get_llm_response_with_supabase wOk llmUnknown "openai" (fun _ => "")
      "hello" none none).reply = some "ok" := by
  have h := C5_unknown_capability wOk llmUnknown (fun _ => "") "hello" "ok"
    "frobnicate" none none [] amUnknown tcUnknown (by decide)
  exact ⟨h.1.1, (h.2 rfl rfl rfl (fun _ => rfl)).1⟩

/-! ## C9 — attendance marking without a user identity -/

/-- C9: an attendance-marking invocation whose Credential Context has an
absent or empty user identity yields a failure envelope, performs no
external write, and a turn whose first response requests only that
invocation still completes with the text of the second response as reply. -/
theorem C9_attendance_requires_identity (w : World) (llm : LLMOracle)
    (histRender : String → String) (message t : String)
    (tok uid : Option String) (args : Jobj) (am : LLMMessage) (tc : ToolCall)
    (huid : pyFalsy uid = true) :
    (jget (execute_tool w "mark_attendance" args tok uid).1 "success" =
       some (JVal.bool false) ∧
     (execute_tool w "mark_attendance" args tok uid).2 = []) ∧
    (llm.first = Except.ok am → am.tool_calls = [tc] →
     tc.name = "mark_attendance" →
     (∀ ms, llm.second ms = Except.ok (some t)) →
     (get_llm_response_with_supabase w llm "openai" histRender message tok uid).reply =
        some t ∧
     (get_llm_response_with_supabase w llm "openai" histRender message tok uid).ext = []) := by
  have hexec : ∀ a : Jobj, execute_tool w "mark_attendance" a tok uid =
      ( [ ("success", JVal.bool false)
        , ("error", JVal.str "User ID is required for attendance marking")
        , ("message", JVal.str "Please ensure you\x27re logged in to mark attendance") ]
      , []) := by
    intro a
    simp only [execute_tool, huid]
    rfl
  refine ⟨⟨by rw [hexec args]; rfl, by rw [hexec args]⟩, ?_⟩
  intro hfirst hcalls hn hsec
  simp only [get_llm_response_with_supabase, hfirst, hcalls, beq_self_eq_true,
    hsec, hn, hexec]
  exact ⟨trivial, trivial⟩

/-- Witness for C9: user identity absent at a concrete run. -/
theorem C9_attendance_requires_identity_witness :
    jget (execute_tool wOk "mark_attendance"
      [("course_name", JVal.str "CS101")] none none).1 "success" =
      some (JVal.bool false) ∧
    (execute_tool wOk "mark_attendance"
      [("course_name", JVal.str "CS101")] none none).2 = [] := by
  have h := C9_attendance_requires_identity wOk (llmPlain "x") (fun _ => "")
    "mark me present" "x" none none [("course_name", JVal.str "CS101")]
    { role := "assistant", content := some "x", tool_calls := [] }
    { id := "c1", name := "mark_attendance", arguments := [] } rfl
  exact h.1

/-! ## C3 — attendance record fields -/

/-- C3: the claim says the user field of the appended attendance record holds
the user identity and its course field holds the course name.  Marking
attendance for user "42" in course "CS101" commits a row binding "CS101"
to the `user_id` column and "42" to the `course_name` column (the tool
forwards its arguments positionally into the swapped signature), while the
returned success envelope reports the fields the claim expects. -/
theorem C3_attendance_row_swapped :
    (mark_attendance wOk "CS101" "42").2 =
      [ExtCall.attendanceInsert "CS101" "42"] ∧
    jget (mark_attendance wOk "CS101" "42").1 "success" =
      some (JVal.bool true) ∧
    jget (mark_attendance wOk "CS101" "42").1 "attendance_data" =
      some (JVal.obj
        [ ("user_id", JVal.str "42")
        , ("course", JVal.str "CS101")
        , ("marked_at", JVal.str "2026-10-12T00:00:00")
        , ("status", JVal.str "Present") ]) ∧
    ExtCall.attendanceInsert "CS101" "42" ≠ ExtCall.attendanceInsert "42" "CS101" := by
  refine ⟨rfl, rfl, rfl, by decide⟩

/-! ## C8 — re-authentication flag on auth-class failures -/

/-- A world whose Gmail interactions raise an authentication-class error. -/
def wAuthFail : World :=
  { wOk with
    gmailUnread := fun _ _ =>
      Except.error "invalid_grant: Token has been expired or revoked."
  , gmailDraft := fun _ _ _ _ =>
      Except.error "invalid_grant: Token has been expired or revoked." }

/-- A calendar world whose connection lookup raises an authentication-class
error. -/
def cwAuthFail : CalendarWorld :=
  { connection := fun _ =>
      Except.error "invalid_grant: Token has been expired or revoked."
  , refresh := fun _ => Except.ok (Except.ok "tok")
  , events := fun _ _ => Except.ok []
  , nowIso := "2026-10-12T00:00:00" }

/-- C8: the claim says every calendar/email capability sets a distinct
re-authentication-required flag on an authentication-class failure.  On the
same `invalid_grant` failure, email read and calendar read set
`auth_required = true`, but email compose (`draft_email`) returns its
failure envelope with no `auth_required` key at all. -/
theorem C8_draft_email_missing_reauth_flag :
    jget (get_unread_emails wAuthFail "tok" 10).1 "auth_required" =
      some (JVal.bool true) ∧
    jget (get_upcoming_events cwAuthFail "u1" 10).1 "auth_required" =
      some (JVal.bool true) ∧
    jget (draft_email wAuthFail "tok" "a@b.c" "s" "b").1 "success" =
      some (JVal.bool false) ∧
    jget (draft_email wAuthFail "tok" "a@b.c" "s" "b").1 "error" =
      some (JVal.str "Token expired or invalid. Please re-authenticate with Google.") ∧
    jget (draft_email wAuthFail "tok" "a@b.c" "s" "b").1 "auth_required" = none := by
  refine ⟨rfl, rfl, rfl, rfl, rfl⟩

/-! ## C6 / C10 — chat turn persistence -/

/-- A Conversation Store append carries exactly the content handed to it. -/
theorem appendContent_appendFor (cid : Option String) (u : Nat) (r : String)
    (c : Option String) : appendContent (appendFor cid u r c) = c := by
  cases cid with
  | none => rfl
  | some s =>
    simp only [appendFor]
    split <;> rfl

/-- Helper: on every processed request (google id present, user row found),
whatever the model oracle, the chat endpoint appends exactly the user turn
carrying the request message, then answers 500 with the TypeError detail of
the conversation_id keyword the engine call names. -/
theorem chat_endpoint_store_shape (w : World) (ew : EndpointWorld)
    (llm : LLMOracle) (provider : String) (histRender : String → String)
    (message : String) (conversation_id : Option String) (g email : String)
    (uid : Nat) (hg : g ≠ "") (hu : ew.getUserByGoogleId g = some uid) :
    (chat_endpoint w ew llm provider histRender message conversation_id
        (some g) email).store =
      [ appendFor conversation_id uid "user" (some message) ] ∧
    (chat_endpoint w ew llm provider histRender message conversation_id
        (some g) email).http =
      HttpOut.err 500
        s!"An error occurred while processing your request: {conversationIdKwargError}" := by
  constructor <;>
    simp only [chat_endpoint, pyFalsy, beq_eq_false_iff_ne.mpr hg,
      Bool.false_eq_true, if_false, hu, Option.getD_some]

/-- C6: the claim says every POST chat turn appends one user Turn and then
one assistant Turn, the failure reply stored as the assistant Turn when the
model call fails.  In the source the endpoint passes the conversation_id
keyword to an engine that does not declare it, so on every processed
request — for every model oracle, the engine never being reached — the
TypeError is caught by the generic handler: exactly one user Turn is
appended, the request answers 500, and no assistant Turn is ever
created. -/
theorem C6_engine_call_type_error_drops_assistant_turn (w : World)
    (ew : EndpointWorld) (llm : LLMOracle) (provider : String)
    (histRender : String → String) (message : String)
    (conversation_id : Option String) (g email : String) (uid : Nat)
    (hg : g ≠ "") (hu : ew.getUserByGoogleId g = some uid) :
    (chat_endpoint w ew llm provider histRender message conversation_id
        (some g) email).store =
      [ appendFor conversation_id uid "user" (some message) ] ∧
    (chat_endpoint w ew llm provider histRender message conversation_id
        (some g) email).http =
      HttpOut.err 500
        s!"An error occurred while processing your request: {conversationIdKwargError}" := by
  exact chat_endpoint_store_shape w ew llm provider histRender message
    conversation_id g email uid hg hu

/-- An endpoint world with one known user. -/
def ewFx : EndpointWorld :=
  { getUserByGoogleId := fun _ => some 7
  , tokenStore := fun _ => none }

/-- Witness for C6 at a concrete request: only the user turn is stored and
the response is the 500 with the TypeError detail. -/
theorem C6_engine_call_type_error_drops_assistant_turn_witness :
    (chat_endpoint wOk ewFx (llmPlain "hi") "openai" (fun _ => "")
        "hello there" none (some "g-1") "e@x.y").store =
      [ StoreAppend.legacy 7 "user" (some "hello there") ] ∧
    (chat_endpoint wOk ewFx (llmPlain "hi") "openai" (fun _ => "")
        "hello there" none (some "g-1") "e@x.y").http =
      HttpOut.err 500
        s!"An error occurred while processing your request: {conversationIdKwargError}" := by
  have h := C6_engine_call_type_error_drops_assistant_turn wOk ewFx
    (llmPlain "hi") "openai" (fun _ => "") "hello there" none "g-1" "e@x.y"
    7 (by decide) rfl
  refine ⟨?_, h.2⟩
  rw [h.1]
  rfl

/-- The chat turn whose inbound message is the empty string (ChatRequest
lives in app.models.schemas, absent from the source tree; per spec §6 the
input is {message: text} with no non-emptiness constraint, and §7 notes
ValidationError is not found in the source). -/
def c10run : EndpointOut :=
  chat_endpoint wOk ewFx (llmPlain "hi") "openai" (fun _ => "") "" none
    (some "g-1") "e@x.y"

/-- C10 counterexample: the claim says a Turn is never created without
content, but a chat request whose message is the empty string appends —
through db_client.add_message, which has no content check — a user Turn
whose content is the empty string. -/
theorem C10_counterexample_empty_user_turn :
    c10run.store = [ StoreAppend.legacy 7 "user" (some "") ] ∧
    c10run.store.map (fun a => nonEmptyContent (appendContent a)) =
      [false] := by
  refine ⟨rfl, rfl⟩

/-- C10 amended: turn-creating appends store the supplied content verbatim
with no non-emptiness check — db_client.add_message inserts one row
carrying exactly the content it is given (the empty string included), and
the chat turn appends a user Turn carrying the request message exactly, so
that Turn is non-empty precisely when the inbound message is (while the
assistant append is never reached, per the C6 defect). -/
theorem C10_turn_content_as_supplied (msgs : List (Nat × String × Option String))
    (uid2 : Nat) (role : String) (content : Option String)
    (w : World) (ew : EndpointWorld) (llm : LLMOracle) (provider : String)
    (histRender : String → String) (message : String)
    (conversation_id : Option String) (g email : String) (uid : Nat)
    (hg : g ≠ "") (hu : ew.getUserByGoogleId g = some uid) :
    (add_message msgs uid2 role content).map (fun r => r.2.2) =
      msgs.map (fun r => r.2.2) ++ [content] ∧
    (chat_endpoint w ew llm provider histRender message conversation_id
        (some g) email).store.map appendContent = [some message] ∧
    (chat_endpoint w ew llm provider histRender message conversation_id
        (some g) email).store.map (fun a => nonEmptyContent (appendContent a)) =
      [!(message == "")] := by
  have h := (chat_endpoint_store_shape w ew llm provider histRender message
    conversation_id g email uid hg hu).1
  refine ⟨by simp [add_message], ?_, ?_⟩
  · rw [h]
    simp [appendContent_appendFor]
  · rw [h]
    simp only [List.map, appendContent_appendFor, nonEmptyContent]

/-- Witness for the amended statement of C10 at the empty-message run: the
created user Turn has empty content. -/
theorem C10_turn_content_as_supplied_witness :
    (chat_endpoint wOk ewFx (llmPlain "hi") "openai" (fun _ => "") "" none
        (some "g-1") "e@x.y").store.map appendContent = [some ""] ∧
    (chat_endpoint wOk ewFx (llmPlain "hi") "openai" (fun _ => "") "" none
        (some "g-1") "e@x.y").store.map
      (fun a => nonEmptyContent (appendContent a)) = [false] := by
  have h := C10_turn_content_as_supplied [] 7 "user" (some "") wOk ewFx
    (llmPlain "hi") "openai" (fun _ => "") "" none "g-1" "e@x.y" 7
    (by decide) rfl
  refine ⟨h.2.1, ?_⟩
  rw [h.2.2]
  rfl

/-! ## C4 — conversation deletion errors -/

/-- C4: when the requesting owner does not match the stored owner, the
delete endpoint answers 403 and leaves the store (conversations and turns)
intact; when the conversation id is unknown it answers 404; the two error
kinds are distinguishable. -/
theorem C4_delete_distinguishes_authz_and_not_found (st : ConvStore)
    (cid g : String) (p : String × String) (hg : g ≠ "") :
    (st.conversations.find? (fun c => c.1 == cid) = some p → p.2 ≠ g →
      delete_conversation_endpoint st cid (some g) =
        (HttpOut.err 403 "Access denied", st)) ∧
    (st.conversations.find? (fun c => c.1 == cid) = none →
      delete_conversation_endpoint st cid (some g) =
        (HttpOut.err 404 "Conversation not found", st)) ∧
    (∀ d1 d2 : String, HttpOut.err 403 d1 ≠ HttpOut.err 404 d2) := by
  refine ⟨?_, ?_, ?_⟩
  · intro hfind hown
    simp only [delete_conversation_endpoint, pyFalsy,
      beq_eq_false_iff_ne.mpr hg, Bool.false_eq_true, if_false,
      Option.getD_some, db_delete_conversation, hfind,
      beq_eq_false_iff_ne.mpr hown]
    rfl
  · intro hfind
    simp only [delete_conversation_endpoint, pyFalsy,
      beq_eq_false_iff_ne.mpr hg, Bool.false_eq_true, if_false,
      Option.getD_some, db_delete_conversation, hfind]
    rfl
  · intro d1 d2 h
    injection h with h1 _
    exact absurd h1 (by decide)

/-- A store with one conversation owned by "alice" and one of its turns. -/
def stFx : ConvStore :=
  { conversations := [("c-1", "alice")]
  , messages := [("c-1", "user", some "hello")] }

/-- Witness for C4: "bob" deleting the conversation of "alice" gets 403 with
the store intact; deleting an unknown id gets 404. -/
theorem C4_delete_distinguishes_authz_and_not_found_witness :
    delete_conversation_endpoint stFx "c-1" (some "bob") =
      (HttpOut.err 403 "Access denied", stFx) ∧
    delete_conversation_endpoint stFx "c-2" (some "bob") =
      (HttpOut.err 404 "Conversation not found", stFx) := by
  have h1 := C4_delete_distinguishes_authz_and_not_found stFx "c-1" "bob"
    ("c-1", "alice") (by decide)
  have h2 := C4_delete_distinguishes_authz_and_not_found stFx "c-2" "bob"
    ("c-1", "alice") (by decide)
  exact ⟨h1.1 rfl (by decide), h2.2.1 rfl⟩

end StudyRobo
